/-
Verification of the SafeSign client-side authentication logic.

This development shallowly embeds the reproducible logic of the repository:
  * the zod validation schemas of src/lib/validations.ts
    (passwordSchema, emailSchema, loginSchema, signupSchema),
  * the password-strength meter of src/pages/Signup.tsx,
  * the login attempt guard (lockout state machine) of src/pages/Login.tsx,
  * the control flow of signUp / signIn / signOut in src/hooks/useAuth.tsx.

Modelling conventions:
  * Strings are Lean `String` (sequences of unicode scalar values); all inputs
    relevant to the claims are ASCII, where JS UTF-16 `length` coincides with
    `String.length`.
  * zod v3 `ZodString` processes its checks in declaration order over a mutable
    value: predicate checks (`min`, `max`, `email`, `regex`) test the current
    value and accumulate issues without stopping, and transform checks
    (`trim`, `toLowerCase`) replace the current value.  In particular, in
    `z.string().email().max(255).trim().toLowerCase()` the email and length
    checks run on the raw input, before trimming and lower-casing.
  * Epoch-millisecond timestamps are `Nat`; the attempt counter and the
    server-reported `attempts_remaining` are `Int`, since JS subtraction of
    server-supplied integers can go negative.
  * localStorage is modelled as the two typed optional entries the page uses
    ("loginLockoutEnd" and "loginAttempts"); the stored decimal strings
    round-trip through `toString` / `parseInt`.
  * supabase-js data calls (`.rpc`, `.from(...).update/insert`) resolve with a
    `{ data, error }` value and do not reject, so a discarded result can never
    alter control flow; `await`ed results whose `error` field is thrown by the
    source are modelled as `Except` / `Option` error values.
-/

import Mathlib

namespace SafeSign

/-! ## Character classes used by the zod regexes -/

def isAsciiUpper (c : Char) : Bool := 'A' ≤ c && c ≤ 'Z'

def isAsciiLower (c : Char) : Bool := 'a' ≤ c && c ≤ 'z'

def isAsciiLetter (c : Char) : Bool := isAsciiUpper c || isAsciiLower c

def isAsciiDigit (c : Char) : Bool := '0' ≤ c && c ≤ '9'

def isAsciiAlnum (c : Char) : Bool := isAsciiLetter c || isAsciiDigit c

/-! ## passwordSchema (src/lib/validations.ts)

`z.string().min(8, …).regex(/[A-Z]/, …).regex(/[a-z]/, …).regex(/[0-9]/, …)
  .regex(/[^A-Za-z0-9]/, …)` — five predicate checks, each contributing its
own message when it fails; no transforms. -/

/-- `/[A-Z]/.test s` -/
def hasUpper (s : String) : Bool := s.toList.any isAsciiUpper

/-- `/[a-z]/.test s` -/
def hasLower (s : String) : Bool := s.toList.any isAsciiLower

/-- `/[0-9]/.test s` -/
def hasDigit (s : String) : Bool := s.toList.any isAsciiDigit

/-- `/[^A-Za-z0-9]/.test s` -/
def hasSpecial (s : String) : Bool := s.toList.any (fun c => !isAsciiAlnum c)

def pwMsgLen : String := "Password must be at least 8 characters"
def pwMsgUpper : String := "Password must contain at least one uppercase letter"
def pwMsgLower : String := "Password must contain at least one lowercase letter"
def pwMsgDigit : String := "Password must contain at least one number"
def pwMsgSpecial : String := "Password must contain at least one special character"

/-- The list of issues `passwordSchema.safeParse s` reports, in check order. -/
def passwordIssues (s : String) : List String :=
  (if s.length < 8 then [pwMsgLen] else []) ++
  (if hasUpper s then [] else [pwMsgUpper]) ++
  (if hasLower s then [] else [pwMsgLower]) ++
  (if hasDigit s then [] else [pwMsgDigit]) ++
  (if hasSpecial s then [] else [pwMsgSpecial])

/-! ## emailSchema (src/lib/validations.ts)

`z.string().email("Invalid email address").max(255, …).trim().toLowerCase()`.
The email format check is zod v3's email regex
`/^(?!\.)(?!.*\.\.)([A-Z0-9_'+\-\.]*)[A-Z0-9_+-]@([A-Z0-9][A-Z0-9\-]*\.)+[A-Z]{2,}$/i`,
implemented structurally below: since `@` occurs in no character class, a
match splits the string at its unique `@` into a local part and a domain,
and the domain splits at its dots into labels and a final TLD. -/

/-- Characters allowed anywhere in the local part: `[A-Z0-9_'+\-\.]` (/i). -/
def isLocalChar (c : Char) : Bool :=
  isAsciiAlnum c || c = '_' || c = Char.ofNat 39 || c = '+' || c = '-' || c = '.'

/-- Characters allowed as the last local-part character: `[A-Z0-9_+-]` (/i). -/
def isLocalEndChar (c : Char) : Bool :=
  isAsciiAlnum c || c = '_' || c = '+' || c = '-'

/-- Characters allowed after the first character of a domain label:
`[A-Z0-9\-]` (/i). -/
def isLabelChar (c : Char) : Bool := isAsciiAlnum c || c = '-'

/-- Whether the character list contains two consecutive dots
(the `(?!.*\.\.)` lookahead). -/
def hasDoubleDot : List Char → Bool
  | [] => false
  | [_] => false
  | a :: b :: rest => (a = '.' && b = '.') || hasDoubleDot (b :: rest)

/-- Split a character list at every occurrence of `sep`. -/
def splitOnChar (sep : Char) : List Char → List (List Char)
  | [] => [[]]
  | c :: rest =>
    let r := splitOnChar sep rest
    if c = sep then [] :: r
    else
      match r with
      | [] => [[c]]
      | h :: t => (c :: h) :: t

/-- A domain label `[A-Z0-9][A-Z0-9\-]*` (/i). -/
def validLabel (l : List Char) : Bool :=
  match l with
  | [] => false
  | c :: rest => isAsciiAlnum c && rest.all isLabelChar

/-- The final domain component `[A-Z]{2,}` (/i). -/
def validTld (t : List Char) : Bool :=
  t.length ≥ 2 && t.all isAsciiLetter

/-- The domain `([A-Z0-9][A-Z0-9\-]*\.)+[A-Z]{2,}` (/i): at least one
dot-terminated label followed by a letters-only TLD. -/
def validDomain (d : List Char) : Bool :=
  match (splitOnChar '.' d).reverse with
  | [] => false
  | tld :: labels => !labels.isEmpty && labels.all validLabel && validTld tld

/-- zod v3's email regex, as a predicate on the raw string. -/
def emailOk (s : String) : Bool :=
  let cs := s.toList
  match cs with
  | [] => false
  | c0 :: _ =>
    c0 ≠ '.' && !hasDoubleDot cs &&
    (match splitOnChar '@' cs with
     | [lp, domain] =>
       lp.all isLocalChar &&
       (match lp.reverse with
        | [] => false
        | lc :: _ => isLocalEndChar lc) &&
       validDomain domain
     | _ => false)

def emailMsgInvalid : String := "Invalid email address"

/-- Outcome of a zod `safeParse`: the (possibly transformed) value on success,
the accumulated issues on failure. -/
inductive ZResult (ε α : Type) where
  | ok (value : α)
  | error (issues : ε)
  deriving Repr, DecidableEq
def emailMsgTooLong : String := "Email must not exceed 255 characters"

/-- Issues reported by `emailSchema.safeParse s`; both predicate checks run on
the raw input, before the `trim` and `toLowerCase` transforms. -/
def emailIssues (s : String) : List String :=
  (if emailOk s then [] else [emailMsgInvalid]) ++
  (if s.length > 255 then [emailMsgTooLong] else [])

/-- JS `String.prototype.trim` (on the ASCII whitespace the inputs use). -/
def strTrim (s : String) : String :=
  ⟨((s.toList.dropWhile Char.isWhitespace).reverse.dropWhile Char.isWhitespace).reverse⟩

/-- JS `String.prototype.toLowerCase` (ASCII). -/
def strToLower (s : String) : String := ⟨s.toList.map Char.toLower⟩

/-- The transforms applied to the value after the checks:
`.trim().toLowerCase()`. -/
def emailTransform (s : String) : String := strToLower (strTrim s)

/-- `emailSchema.safeParse`: the normalized value on success, the issue list on
failure. -/
def parseEmail (s : String) : ZResult (List String) String :=
  if emailIssues s = [] then .ok (emailTransform s) else .error (emailIssues s)

/-! ## loginSchema (src/lib/validations.ts)

`z.object({ email: emailSchema, password: z.string().min(1, "Password is
required") })`. -/

def loginPwMsg : String := "Password is required"

/-- Issues the login schema reports for the password field. -/
def loginPasswordIssues (p : String) : List String :=
  if p.length < 1 then [loginPwMsg] else []

structure LoginFormData where
  email : String
  password : String
  deriving Repr, DecidableEq

/-- `loginSchema.safeParse`: field-keyed issues on failure, the parsed record
(with the email normalized by its transforms) on success. -/
def parseLogin (e p : String) : ZResult (List (String × String)) LoginFormData :=
  let es := emailIssues e
  let ps := loginPasswordIssues p
  if es = [] && ps = [] then
    .ok ⟨emailTransform e, p⟩
  else
    .error (es.map (fun m => ("email", m)) ++ ps.map (fun m => ("password", m)))

/-! ## Password strength meter (src/pages/Signup.tsx, lines 51–66, 113–117,
190–191) -/

/-- The strength score computed by the Signup page effect. -/
def passwordStrength (p : String) : Nat :=
  if p = "" then 0
  else
    (if p.length ≥ 8 then 20 else 0) +
    (if p.length ≥ 12 then 10 else 0) +
    (if hasUpper p then 20 else 0) +
    (if hasLower p then 20 else 0) +
    (if hasDigit p then 15 else 0) +
    (if hasSpecial p then 15 else 0)

/-- The label rendered next to the strength bar. -/
def strengthLabel (n : Nat) : String :=
  if n < 40 then "Weak" else if n < 70 then "Medium" else "Strong"

/-! ## Login attempt guard (src/pages/Login.tsx)

The page state is `loginAttempts`, `isLocked`, `lockoutEndTime` plus the two
localStorage entries `"loginLockoutEnd"` and `"loginAttempts"`.
`MAX_LOGIN_ATTEMPTS = 5`; `LOCKOUT_DURATION = 15 * 60 * 1000` is declared at
line 28 but referenced nowhere else in the component. -/

def MAX_LOGIN_ATTEMPTS : Int := 5

def LOCKOUT_DURATION : Nat := 15 * 60 * 1000

/-- What `check_rate_limit` returned, when the RPC neither errored nor
returned null: `{ allowed, lockout_until, attempts_remaining }`
(`lockout_until` already converted by `new Date(...).getTime()`). -/
structure RateLimitResult where
  allowed : Bool
  lockout_until : Nat
  attempts_remaining : Int
  deriving Repr, DecidableEq

/-- The guard state: the three React state fields and the two persisted
localStorage entries. -/
structure GuardState where
  loginAttempts : Int
  isLocked : Bool
  lockoutEndTime : Option Nat
  storeLockoutEnd : Option Nat
  storeAttempts : Option Int
  deriving Repr, DecidableEq

/-- The remote calls `onSubmit` can issue, in order of appearance. -/
inductive RemoteCall where
  | checkRateLimit
  | signInCall
  | recordLoginAttempt
  deriving Repr, DecidableEq

/-- The state every reset path produces: attempts 0, unlocked, no expiry, both
persisted keys removed. -/
def clearedState : GuardState :=
  { loginAttempts := 0, isLocked := false, lockoutEndTime := none,
    storeLockoutEnd := none, storeAttempts := none }

/-- The mount effect (Login.tsx lines 55–72): rehydrate from the persisted
entries.  If a stored lockout end is still in the future the page becomes
locked; otherwise both keys are removed — and since `"loginAttempts"` is read
only after that removal, the attempt counter stays at its initial 0. -/
def rehydrate (storeLockoutEnd : Option Nat) (storeAttempts : Option Int)
    (now : Nat) : GuardState :=
  match storeLockoutEnd with
  | some endTime =>
    if now < endTime then
      { loginAttempts := storeAttempts.getD 0, isLocked := true,
        lockoutEndTime := some endTime,
        storeLockoutEnd := some endTime, storeAttempts := storeAttempts }
    else
      clearedState
  | none =>
    { loginAttempts := storeAttempts.getD 0, isLocked := false,
      lockoutEndTime := none,
      storeLockoutEnd := none, storeAttempts := storeAttempts }

/-- One firing of the 1-second countdown interval (Login.tsx lines 75–89).
The effect installs the interval only when `isLocked && lockoutEndTime` is
truthy (a stored expiry of 0 is falsy in JS); the callback resets everything
once `Date.now() >= lockoutEndTime`. -/
def tick (s : GuardState) (now : Nat) : GuardState :=
  if s.isLocked then
    match s.lockoutEndTime with
    | some t => if t ≠ 0 && decide (t ≤ now) then clearedState else s
    | none => s
  else s

/-- `onSubmit` (Login.tsx lines 91–171), as a function of the guard state and
of the two remote outcomes it consumes: the rate-limit check response
(`none` when the RPC errored) and whether `signIn` returned an error.
Returns the post-submission state and the list of remote calls issued. -/
def submit (s : GuardState) (rlc : Option RateLimitResult) (signInFails : Bool) :
    GuardState × List RemoteCall :=
  if s.isLocked then
    -- early return: toast only, no network traffic, no state change
    (s, [])
  else
    match rlc with
    | some r =>
      if !r.allowed then
        -- server-reported lockout: lock with the server-supplied expiry;
        -- note `setLoginAttempts` is NOT called here, only the stored entry
        -- is set to MAX_LOGIN_ATTEMPTS
        ({ s with isLocked := true, lockoutEndTime := some r.lockout_until,
                  storeLockoutEnd := some r.lockout_until,
                  storeAttempts := some MAX_LOGIN_ATTEMPTS },
         [.checkRateLimit])
      else
        if signInFails then
          let attemptsRemaining := r.attempts_remaining
          let newAttempts := MAX_LOGIN_ATTEMPTS - attemptsRemaining + 1
          ({ s with loginAttempts := newAttempts,
                    storeAttempts := some newAttempts },
           [.checkRateLimit, .signInCall, .recordLoginAttempt])
        else
          ({ s with loginAttempts := 0,
                    storeAttempts := none, storeLockoutEnd := none },
           [.checkRateLimit, .signInCall, .recordLoginAttempt])
    | none =>
      -- rate-limit RPC errored: `rateLimitCheck` is null, the lock branch is
      -- skipped and `attemptsRemaining` falls back to MAX_LOGIN_ATTEMPTS
      if signInFails then
        let newAttempts := MAX_LOGIN_ATTEMPTS - MAX_LOGIN_ATTEMPTS + 1
        ({ s with loginAttempts := newAttempts,
                  storeAttempts := some newAttempts },
         [.checkRateLimit, .signInCall, .recordLoginAttempt])
      else
        ({ s with loginAttempts := 0,
                  storeAttempts := none, storeLockoutEnd := none },
         [.checkRateLimit, .signInCall, .recordLoginAttempt])

/-- The states the guard can be in: mounted from arbitrary persisted storage,
then evolved by interval ticks and submissions. -/
inductive Reach : GuardState → Prop where
  | mount (storeLockoutEnd : Option Nat) (storeAttempts : Option Int) (now : Nat) :
      Reach (rehydrate storeLockoutEnd storeAttempts now)
  | tickStep {s : GuardState} (now : Nat) :
      Reach s → Reach (tick s now)
  | submitStep {s : GuardState} (rlc : Option RateLimitResult) (f : Bool) :
      Reach s → Reach (submit s rlc f).1

/-! ## signUp / signIn / signOut control flow (src/hooks/useAuth.tsx)

Each flow is a function of the outcomes of the external calls it awaits.
supabase-js data calls resolve with `{ data, error }` and never reject, so a
result that the source discards (the profile `update` in `signIn`, every
`log_security_event` RPC) cannot change control flow; a result whose `error`
the source throws re-enters through the `catch` block.  Each model returns
the `{ error }` value the hook hands back together with the audit-log writes
it attempted, as `(event type, write succeeded)` pairs. -/

/-- `signIn` (useAuth.tsx lines 116–162). -/
def signInFlow (authError : Option String) (profileUpdateOk : Bool)
    (auditOk : Bool) : Option String × List (String × Bool) :=
  match authError with
  | none =>
    -- success path: profile update result discarded, audit result discarded
    let _ := profileUpdateOk
    (none, [("login_success", auditOk)])
  | some e =>
    -- `throw error` lands in the catch block, which logs the failure and
    -- fires the failed-login audit write before returning { error }
    (some e, [("login_failed", auditOk)])

/-- `signUp` (useAuth.tsx lines 53–110).  `userCreated` is whether
`authData.user` was non-null; `profileError` is the profiles-insert error,
which the source throws when present. -/
def signUpFlow (authError : Option String) (userCreated : Bool)
    (profileError : Option String) (auditOk : Bool) :
    Option String × List (String × Bool) :=
  match authError with
  | some e => (some e, [("signup_failed", auditOk)])
  | none =>
    if userCreated then
      match profileError with
      | some e => (some e, [("signup_failed", auditOk)])
      | none => (none, [("signup_success", auditOk)])
    else
      -- no user object: no profile insert, no audit write, still a success
      (none, [])

/-- `signOut` (useAuth.tsx lines 168–196).  `hadUser` is whether a user id was
available before signing out. -/
def signOutFlow (signOutError : Option String) (hadUser : Bool)
    (auditOk : Bool) : Option String × List (String × Bool) :=
  match signOutError with
  | some e => (some e, [])
  | none =>
    if hadUser then (none, [("logout_success", auditOk)]) else (none, [])

/-! ## Helper lemmas -/

/-- The password schema accepts exactly the strings meeting all five
conditions. -/
lemma passwordIssues_eq_nil_iff (s : String) :
    passwordIssues s = [] ↔
      (8 ≤ s.length ∧ hasUpper s = true ∧ hasLower s = true ∧
       hasDigit s = true ∧ hasSpecial s = true) := by
  by_cases h1 : s.length < 8 <;>
    cases h2 : hasUpper s <;> cases h3 : hasLower s <;>
    cases h4 : hasDigit s <;> cases h5 : hasSpecial s <;>
    · simp [passwordIssues, h1, h2, h3, h4, h5]
      try omega

/-- A score of at least 70 renders as "Strong". -/
lemma strengthLabel_of_enough (n : Nat) (h : 70 ≤ n) :
    strengthLabel n = "Strong" := by
  unfold strengthLabel
  rw [if_neg (by omega), if_neg (by omega)]

/-! ## Concrete runs of the guard -/

/-- A fresh mount with empty storage at time 0. -/
def freshMount : GuardState := rehydrate none none 0

/-- A failed submission whose rate-limit check succeeded with
`allowed = true` and the given `attempts_remaining`. -/
def failedSubmit (s : GuardState) (rem : Int) : GuardState :=
  (submit s (some ⟨true, 0, rem⟩) true).1

/-- Five consecutive failed submissions from a fresh mount, the server
reporting the in-sync `attempts_remaining` of 5, 4, 3, 2, 1. -/
def fiveFailures : GuardState :=
  failedSubmit (failedSubmit (failedSubmit (failedSubmit
    (failedSubmit freshMount 5) 4) 3) 2) 1

/-- Three consecutive failed submissions from a fresh mount, in sync. -/
def threeFailures : GuardState :=
  failedSubmit (failedSubmit (failedSubmit freshMount 5) 4) 3

/-- A locked guard state with expiry 900000 and a stored counter of 5. -/
def lockedExample : GuardState :=
  { loginAttempts := 5, isLocked := true, lockoutEndTime := some 900000,
    storeLockoutEnd := some 900000, storeAttempts := some 5 }

/-! ## Claims -/

/-- C5: a password missing any of {length ≥ 8, an uppercase letter, a
lowercase letter, a digit, a non-alphanumeric character} fails validation and
the issue list contains the exact message of each unmet condition (and only
those); a password satisfying all five conditions validates successfully. -/
theorem password_schema_exact_messages (s : String) :
    (passwordIssues s = [] ↔
      (8 ≤ s.length ∧ hasUpper s = true ∧ hasLower s = true ∧
       hasDigit s = true ∧ hasSpecial s = true))
    ∧ (s.length < 8 ↔ pwMsgLen ∈ passwordIssues s)
    ∧ (hasUpper s = false ↔ pwMsgUpper ∈ passwordIssues s)
    ∧ (hasLower s = false ↔ pwMsgLower ∈ passwordIssues s)
    ∧ (hasDigit s = false ↔ pwMsgDigit ∈ passwordIssues s)
    ∧ (hasSpecial s = false ↔ pwMsgSpecial ∈ passwordIssues s) := by
  refine ⟨passwordIssues_eq_nil_iff s, ?_, ?_, ?_, ?_, ?_⟩ <;>
    · by_cases h1 : s.length < 8 <;>
      cases h2 : hasUpper s <;> cases h3 : hasLower s <;>
      cases h4 : hasDigit s <;> cases h5 : hasSpecial s <;>
      simp [passwordIssues, h1, h2, h3, h4, h5, pwMsgLen, pwMsgUpper,
            pwMsgLower, pwMsgDigit, pwMsgSpecial]

/-- C4 counterexample: validating the whitespace-padded input
`"  Test@Example.com  "` does not succeed — the email-format check runs on
the raw string, before the trim and lower-case transforms, so the input is
rejected with "Invalid email address". -/
theorem email_padded_input_rejected :
    parseEmail "  Test@Example.com  " = .error [emailMsgInvalid] ∧
    parseEmail "  Test@Example.com  " ≠ .ok "test@example.com" := by
  constructor <;> decide

/-- C4 amended: the trim and lower-case transforms run only after the
email-format and length checks, so a whitespace-padded address fails
validation; the already-trimmed mixed-case input "Test@Example.com"
validates and is normalized to "test@example.com". -/
theorem email_normalization_after_checks :
    parseEmail "Test@Example.com" = .ok "test@example.com" ∧
    parseEmail "  Test@Example.com  " = .error [emailMsgInvalid] ∧
    emailTransform "  Test@Example.com  " = "test@example.com" := by
  refine ⟨by decide, by decide, by decide⟩

/-- C9: the login schema only requires a non-empty password — the five
complexity rules live in the signup password schema alone.  In particular
the one-character password "a" passes login validation together with a
well-formed email, while the signup password schema rejects it. -/
theorem login_accepts_any_nonempty_password :
    (∀ p : String, 1 ≤ p.length → loginPasswordIssues p = [])
    ∧ parseLogin "john@example.com" "a" = .ok ⟨"john@example.com", "a"⟩
    ∧ passwordIssues "a" ≠ [] := by
  refine ⟨?_, by decide, by decide⟩
  intro p h
  unfold loginPasswordIssues
  rw [if_neg (by omega)]

/-- C9 witness: the password "a" is non-empty and is accepted by the login
password rule. -/
theorem login_accepts_any_nonempty_password_witness :
    1 ≤ "a".length ∧ loginPasswordIssues "a" = [] :=
  ⟨by decide, login_accepts_any_nonempty_password.1 "a" (by decide)⟩

/-- C10: the strength score is capped at 100, and any password accepted by the
signup password schema scores at least 90, hence renders with the "Strong"
label (threshold 70). -/
theorem schema_valid_password_is_strong :
    (∀ p : String, passwordStrength p ≤ 100)
    ∧ ∀ p : String, passwordIssues p = [] →
        90 ≤ passwordStrength p ∧
        strengthLabel (passwordStrength p) = "Strong" := by
  constructor
  · intro p
    unfold passwordStrength
    split
    · omega
    · split <;> split <;> split <;> split <;> split <;> split <;> omega
  · intro p h
    obtain ⟨hlen, hu, hl, hd, hs⟩ := (passwordIssues_eq_nil_iff p).mp h
    have hne : p ≠ "" := by
      intro he
      rw [he] at hlen
      simp [String.length] at hlen
    have h90 : 90 ≤ passwordStrength p := by
      unfold passwordStrength
      rw [if_neg hne]
      simp only [hu, hl, hd, hs, if_true]
      rw [if_pos hlen]
      split <;> omega
    exact ⟨h90, strengthLabel_of_enough _ (by omega)⟩

/-- C10 witness: "Abcdef1!" is schema-valid, scores at least 90 and renders
as "Strong". -/
theorem schema_valid_password_is_strong_witness :
    passwordIssues "Abcdef1!" = [] ∧
    (90 ≤ passwordStrength "Abcdef1!" ∧
     strengthLabel (passwordStrength "Abcdef1!") = "Strong") :=
  ⟨by decide, schema_valid_password_is_strong.2 "Abcdef1!" (by decide)⟩

/-- C1 counterexample: starting from a fresh OPEN mount, after the 5th
recorded failed attempt (the counter reaches the threshold 5) the guard is
still unlocked and `lockoutEndTime` is unset — there is no transition to
LOCKED and no `now + 15 minutes` expiry. -/
theorem fifth_failure_does_not_lock :
    fiveFailures.loginAttempts = MAX_LOGIN_ATTEMPTS ∧
    fiveFailures.isLocked = false ∧
    fiveFailures.lockoutEndTime = none := by
  refine ⟨by decide, by decide, by decide⟩

/-- C1 amended: recording the 5th failed attempt stores a counter of 5 but
leaves the guard OPEN; the guard locks only on a later submission whose
server rate-limit check reports `allowed = false`, and then `lockoutEndTime`
is the server-supplied `lockout_until` (the client LOCKOUT_DURATION constant
is unused). -/
theorem lock_comes_from_server_verdict :
    (fiveFailures.loginAttempts = 5 ∧ fiveFailures.isLocked = false ∧
     fiveFailures.lockoutEndTime = none)
    ∧ ∀ (s : GuardState) (r : RateLimitResult) (f : Bool),
        s.isLocked = false → r.allowed = false →
        submit s (some r) f =
          ({ s with isLocked := true, lockoutEndTime := some r.lockout_until,
                    storeLockoutEnd := some r.lockout_until,
                    storeAttempts := some MAX_LOGIN_ATTEMPTS },
           [.checkRateLimit]) := by
  refine ⟨⟨by decide, by decide, by decide⟩, ?_⟩
  intro s r f h1 h2
  simp [submit, h1, h2]

/-- C1 amended witness: a not-allowed verdict after the five failures locks
the guard with the server-supplied expiry. -/
theorem lock_comes_from_server_verdict_witness :
    fiveFailures.isLocked = false ∧
    (⟨false, 900000, 0⟩ : RateLimitResult).allowed = false ∧
    submit fiveFailures (some ⟨false, 900000, 0⟩) true =
      ({ fiveFailures with isLocked := true, lockoutEndTime := some 900000,
                           storeLockoutEnd := some 900000,
                           storeAttempts := some MAX_LOGIN_ATTEMPTS },
       [.checkRateLimit]) :=
  ⟨by decide, rfl,
   lock_comes_from_server_verdict.2 fiveFailures ⟨false, 900000, 0⟩ true
     (by decide) rfl⟩

/-- C2: a submission made while the guard is locked (and the expiry lies in
the future) is rejected by the early return: the state is unchanged and no
remote call — rate-limit check, sign-in, or attempt recording — is issued. -/
theorem locked_submission_makes_no_remote_call
    (s : GuardState) (t now : Nat) (rlc : Option RateLimitResult) (f : Bool)
    (hLocked : s.isLocked = true) (_hEnd : s.lockoutEndTime = some t)
    (_hFuture : now < t) :
    submit s rlc f = (s, []) := by
  simp [submit, hLocked]

/-- C2 witness: a locked state with expiry 900000 observed at time 0 rejects
a submission without issuing any remote call. -/
theorem locked_submission_makes_no_remote_call_witness :
    lockedExample.isLocked = true ∧
    lockedExample.lockoutEndTime = some 900000 ∧
    (0 : Nat) < 900000 ∧
    submit lockedExample (some ⟨true, 0, 5⟩) true = (lockedExample, []) :=
  ⟨rfl, rfl, by decide,
   locked_submission_makes_no_remote_call lockedExample 900000 0
     (some ⟨true, 0, 5⟩) true rfl rfl (by decide)⟩

/-- C3: once the current time reaches `lockoutEndTime`, both observation
paths — an interval tick (installed while `isLocked` holds and the stored
expiry is truthy) and rehydration from the persisted entries on restart —
produce the cleared state: OPEN, attempts 0, both persisted keys removed. -/
theorem expiry_resets_guard :
    (∀ (s : GuardState) (t now : Nat),
       s.isLocked = true → s.lockoutEndTime = some t → t ≠ 0 → t ≤ now →
       tick s now = clearedState)
    ∧ (∀ (storeLockoutEnd : Option Nat) (storeAttempts : Option Int)
         (t now : Nat),
       storeLockoutEnd = some t → t ≤ now →
       rehydrate storeLockoutEnd storeAttempts now = clearedState)
    ∧ clearedState =
        { loginAttempts := 0, isLocked := false, lockoutEndTime := none,
          storeLockoutEnd := none, storeAttempts := none } := by
  refine ⟨?_, ?_, rfl⟩
  · intro s t now h1 h2 h3 h4
    simp [tick, h1, h2, h3, h4]
  · intro sl sa t now h1 h2
    subst h1
    simp [rehydrate, Nat.not_lt.mpr h2]

/-- C3 witness: a locked state with expiry 77 ticks back to the cleared state
at time 100, and a restart at time 100 with a stored expiry of 50 rehydrates
to the cleared state. -/
theorem expiry_resets_guard_witness :
    tick { loginAttempts := 5, isLocked := true, lockoutEndTime := some 77,
           storeLockoutEnd := some 77, storeAttempts := some 5 } 100
      = clearedState ∧
    rehydrate (some 50) (some 3) 100 = clearedState :=
  ⟨expiry_resets_guard.1 _ 77 100 rfl rfl (by decide) (by decide),
   expiry_resets_guard.2.1 (some 50) (some 3) 50 100 rfl (by decide)⟩

/-- C6 counterexample: from a reachable OPEN state with 3 recorded attempts,
a failed submission whose rate-limit check reports `attempts_remaining = 5`
sets the counter to 1, not 4 — the counter is recomputed from the server
response, not incremented. -/
theorem failed_attempt_not_increment :
    threeFailures.isLocked = false ∧
    threeFailures.loginAttempts = 3 ∧
    (failedSubmit threeFailures 5).loginAttempts = 1 ∧
    (failedSubmit threeFailures 5).loginAttempts ≠
      threeFailures.loginAttempts + 1 := by
  refine ⟨by decide, by decide, by decide, by decide⟩

/-- C6 amended: a failed submission while OPEN leaves the guard OPEN and sets
the counter to `threshold − attempts_remaining + 1` from the server response;
when the server count is in sync (`attempts_remaining = threshold −
attempts`), this equals `attempts + 1`. -/
theorem failed_attempt_in_sync_increments
    (s : GuardState) (r : RateLimitResult)
    (hOpen : s.isLocked = false) (hAllowed : r.allowed = true)
    (hSync : r.attempts_remaining = MAX_LOGIN_ATTEMPTS - s.loginAttempts) :
    (submit s (some r) true).1 =
      { s with loginAttempts := s.loginAttempts + 1,
               storeAttempts := some (s.loginAttempts + 1) } := by
  simp only [submit, hOpen, hAllowed, hSync]
  simp only [Bool.false_eq_true, if_false, Bool.not_true, if_true]
  have : MAX_LOGIN_ATTEMPTS - (MAX_LOGIN_ATTEMPTS - s.loginAttempts) + 1 =
      s.loginAttempts + 1 := by omega
  rw [this]

/-- C6 amended witness: from the fresh mount (0 attempts, server reporting 5
remaining), a failed submission yields exactly 1 attempt and an open guard. -/
theorem failed_attempt_in_sync_increments_witness :
    freshMount.isLocked = false ∧
    (⟨true, 0, 5⟩ : RateLimitResult).attempts_remaining =
      MAX_LOGIN_ATTEMPTS - freshMount.loginAttempts ∧
    (submit freshMount (some ⟨true, 0, 5⟩) true).1 =
      { freshMount with loginAttempts := freshMount.loginAttempts + 1,
                        storeAttempts := some (freshMount.loginAttempts + 1) } :=
  ⟨by decide, by decide,
   failed_attempt_in_sync_increments freshMount ⟨true, 0, 5⟩ rfl rfl (by decide)⟩

/-- C7 counterexample: the state reached by one failed submission from a
fresh mount with the server reporting `attempts_remaining = 0` has a counter
of 6 — above the threshold 5 — while `lockoutEndTime` is absent, violating
both the claimed bound and the claimed presence-iff-threshold invariant. -/
theorem reachable_counter_exceeds_threshold :
    Reach (failedSubmit freshMount 0) ∧
    (failedSubmit freshMount 0).loginAttempts = 6 ∧
    (failedSubmit freshMount 0).lockoutEndTime = none :=
  ⟨Reach.submitStep (some ⟨true, 0, 0⟩) true (Reach.mount none none 0),
   by decide, by decide⟩

/-- C7 amended: the invariant the guard actually maintains ties the expiry to
the lock flag, not to the counter: in every reachable state `lockoutEndTime`
is present exactly when `isLocked` holds.  The counter itself is an integer
recomputed from the server response and is not confined to [0, 5]. -/
theorem reachable_lock_iff_expiry (s : GuardState) (h : Reach s) :
    s.isLocked = true ↔ s.lockoutEndTime.isSome = true := by
  induction h with
  | mount sl sa now =>
    unfold rehydrate
    cases sl with
    | none => simp
    | some endTime =>
      by_cases hlt : now < endTime <;> simp [hlt, clearedState]
  | tickStep now h ih =>
    unfold tick
    split
    · split
      · split
        · simp [clearedState]
        · exact ih
      · exact ih
    · exact ih
  | submitStep rlc f h ih =>
    unfold submit
    split
    · exact ih
    · cases rlc with
      | none =>
        dsimp only
        split
        · exact ih
        · exact ih
      | some r =>
        dsimp only
        split
        · simp
        · split
          · exact ih
          · exact ih

/-- C7 amended witness: the fresh mount is reachable, is unlocked and has no
expiry. -/
theorem reachable_lock_iff_expiry_witness :
    Reach freshMount ∧
    (freshMount.isLocked = true ↔ freshMount.lockoutEndTime.isSome = true) :=
  ⟨Reach.mount none none 0,
   reachable_lock_iff_expiry freshMount (Reach.mount none none 0)⟩

/-- C8: the outcome of every signup, login, and logout flow is independent of
whether the fire-and-forget audit write succeeds; in particular a login that
authenticated successfully still returns success when the audit write
fails. -/
theorem audit_failure_never_changes_outcome :
    (∀ (authError : Option String) (profileUpdateOk auditOk : Bool),
       (signInFlow authError profileUpdateOk auditOk).1 = authError)
    ∧ (∀ (authError : Option String) (userCreated : Bool)
         (profileError : Option String) (auditOk : Bool),
       (signUpFlow authError userCreated profileError auditOk).1 =
         (signUpFlow authError userCreated profileError true).1)
    ∧ (∀ (signOutError : Option String) (hadUser auditOk : Bool),
       (signOutFlow signOutError hadUser auditOk).1 = signOutError)
    ∧ ∀ profileUpdateOk : Bool,
        (signInFlow none profileUpdateOk false).1 = none := by
  refine ⟨?_, ?_, ?_, fun _ => rfl⟩
  · intro ae p a
    cases ae <;> rfl
  · intro ae uc pe a
    cases ae <;> cases uc <;> cases pe <;> rfl
  · intro se hu a
    cases se <;> cases hu <;> rfl

end SafeSign
